import Mathlib

set_option maxRecDepth 100000

/-!
Shallow embedding of `src/NOSYNC_sensor_push_Server.py` (class `SensorMonitor`).

Modelling conventions:
* A row of the `offline_sensors` table (as selected by `who_to_send_to`) is `Row`;
  a row of the `sources` registry table is `Source`.
* Timestamps and minute counts are `Nat` (Python integers do not overflow; the
  notification columns are integers maintained by this program starting from 0,
  and `TIMESTAMPDIFF(MINUTE, last_heartbeat, NOW())` is taken at a fixed `NOW()`
  per sweep, carried as the field `minutes_since_last_heartbeat`).
* `check_and_notify` iterates its `intervals` table over a pandas DataFrame with
  row-wise independent masks, so it is embedded as a per-row function; the
  DataFrame version is the map of this function over the rows.
* Each fired field produces one `Notif` (the notification request that is logged)
  and two `DispatchCall`s (the `send_sms` and `send_email` invocations), whose
  results the source discards.  `check_and_notifyD` is the same code abstracted
  over the two dispatch functions; `check_and_notify` instantiates it with the
  stubs from the source (`pass`, i.e. a call that returns no outcome).
-/

structure Row where
  id_in_sources : Nat
  service : String
  master_id : String
  master_name : String
  last_heartbeat : Nat
  minutes_since_last_heartbeat : Nat
  notify_30m_primary : Nat
  notify_1hr_primary : Nat
  notify_1hr_secondary : Nat
  notify_3hr_primary : Nat
  notify_3hr_secondary : Nat
  notify_6hr_primary : Nat
  notify_6hr_secondary : Nat
  notify_12hr_primary : Nat
  notify_12hr_secondary : Nat
  notify_daily_primary : Nat
  notify_daily_secondary : Nat
  notify_weekly_primary : Nat
  notify_weekly_secondary : Nat
deriving DecidableEq

/-- One emitted notification request: the source logs
`Notification sent for {key}: ID {sensor_id} ...` once per fired field. -/
structure Notif where
  key : String
  sensorId : Nat
deriving DecidableEq

/-- One invocation of a dispatch channel (`send_sms` / `send_email`) together
with the outcome the callee reported (`none` for the source's stubs). -/
structure DispatchCall where
  channel : String
  sensorId : Nat
  result : Option Bool
deriving DecidableEq

/-- The source's `send_sms` is a stub: its body is `pass`, so the call returns
no outcome. -/
def send_sms (_id : Nat) : Option Bool := none

/-- The source's `send_email` is a stub: its body is `pass`, so the call
returns no outcome. -/
def send_email (_id : Nat) : Option Bool := none

/-- Reading `df[key]` for the thirteen notification columns of a row. -/
def Row.get (r : Row) (key : String) : Nat :=
  if key = "notify_30m_primary" then r.notify_30m_primary
  else if key = "notify_1hr_primary" then r.notify_1hr_primary
  else if key = "notify_1hr_secondary" then r.notify_1hr_secondary
  else if key = "notify_3hr_primary" then r.notify_3hr_primary
  else if key = "notify_3hr_secondary" then r.notify_3hr_secondary
  else if key = "notify_6hr_primary" then r.notify_6hr_primary
  else if key = "notify_6hr_secondary" then r.notify_6hr_secondary
  else if key = "notify_12hr_primary" then r.notify_12hr_primary
  else if key = "notify_12hr_secondary" then r.notify_12hr_secondary
  else if key = "notify_daily_primary" then r.notify_daily_primary
  else if key = "notify_daily_secondary" then r.notify_daily_secondary
  else if key = "notify_weekly_primary" then r.notify_weekly_primary
  else if key = "notify_weekly_secondary" then r.notify_weekly_secondary
  else 0

/-- Writing `df.loc[..., key] = v` for the thirteen notification columns of a
row. -/
def Row.set (r : Row) (key : String) (v : Nat) : Row :=
  if key = "notify_30m_primary" then { r with notify_30m_primary := v }
  else if key = "notify_1hr_primary" then { r with notify_1hr_primary := v }
  else if key = "notify_1hr_secondary" then { r with notify_1hr_secondary := v }
  else if key = "notify_3hr_primary" then { r with notify_3hr_primary := v }
  else if key = "notify_3hr_secondary" then { r with notify_3hr_secondary := v }
  else if key = "notify_6hr_primary" then { r with notify_6hr_primary := v }
  else if key = "notify_6hr_secondary" then { r with notify_6hr_secondary := v }
  else if key = "notify_12hr_primary" then { r with notify_12hr_primary := v }
  else if key = "notify_12hr_secondary" then { r with notify_12hr_secondary := v }
  else if key = "notify_daily_primary" then { r with notify_daily_primary := v }
  else if key = "notify_daily_secondary" then { r with notify_daily_secondary := v }
  else if key = "notify_weekly_primary" then { r with notify_weekly_primary := v }
  else if key = "notify_weekly_secondary" then { r with notify_weekly_secondary := v }
  else r

/-- The `intervals` table of `check_and_notify`, verbatim from the source;
`none` as upper bound embeds `float('inf')`, `none` as secondary key embeds
`None`. -/
def intervals : List (Nat × Option Nat × String × Option String) :=
  [(30, some 60, "notify_30m_primary", none),
   (60, some 180, "notify_1hr_primary", some "notify_1hr_secondary"),
   (180, some 360, "notify_3hr_primary", some "notify_3hr_secondary"),
   (360, some 720, "notify_6hr_primary", some "notify_6hr_secondary"),
   (720, some 1440, "notify_12hr_primary", some "notify_12hr_secondary"),
   (1440, some 10080, "notify_daily_primary", some "notify_daily_secondary"),
   (10080, none, "notify_weekly_primary", some "notify_weekly_secondary")]

/-- The source's
`mask = (df['minutes_since_last_heartbeat'] > start) & (df['minutes_since_last_heartbeat'] <= end)`
for one row: `end = none` is `float('inf')`, against which `<=` always holds. -/
def inWindow (e lo : Nat) (hi : Option Nat) : Bool :=
  decide (lo < e) && (match hi with | some h => decide (e ≤ h) | none => true)

/-- Python's `str.startswith`, embedded on the character list (the library's
`String.startsWith` does not reduce definitionally, so it cannot serve in an
executable embedding). -/
def pyStartsWith (s pre : String) : Bool := pre.data.isPrefixOf s.data

/-- The per-key firing condition of `check_and_notify`: the branch on
`key.startswith('notify_daily')` / `key.startswith('notify_weekly')` selecting
the counter policies, all other keys using the latch test `df[key] == 0`. -/
def keyFires (e : Nat) (mask : Bool) (key : String) (v : Nat) : Bool :=
  if pyStartsWith key "notify_daily" then
    mask && decide (v < 7) && decide (1440 * (v + 1) ≤ e)
  else if pyStartsWith key "notify_weekly" then
    mask && decide (10080 * (v + 1) ≤ e)
  else
    mask && decide (v = 0)

/-- Accumulated effect of one `check_and_notify` call on one row: the updated
row, the notification requests logged, and the dispatch calls made. -/
structure SweepState where
  row : Row
  notifs : List Notif
  calls : List DispatchCall
deriving DecidableEq

/-- Inner body of `for key in [primary_key, secondary_key]: if key: ...` for one
present key: compute `notify_mask`, increment the column where it holds, log the
notification and invoke `send_sms` / `send_email` (results discarded). -/
def processKey (sms email : Nat → Option Bool) (lo : Nat) (hi : Option Nat)
    (st : SweepState) (key : String) : SweepState :=
  let r := st.row
  let mask := inWindow r.minutes_since_last_heartbeat lo hi
  if keyFires r.minutes_since_last_heartbeat mask key (r.get key) then
    { row := r.set key (r.get key + 1),
      notifs := st.notifs ++ [⟨key, r.id_in_sources⟩],
      calls := st.calls ++
        [⟨"sms", r.id_in_sources, sms r.id_in_sources⟩,
         ⟨"email", r.id_in_sources, email r.id_in_sources⟩] }
  else st

/-- One iteration of `for start, end, primary_key, secondary_key in intervals`:
the primary key is always present, the secondary key only when not `None`. -/
def processInterval (sms email : Nat → Option Bool)
    (st : SweepState) (iv : Nat × Option Nat × String × Option String) : SweepState :=
  let (lo, hi, pk, sk) := iv
  let st1 := processKey sms email lo hi st pk
  match sk with
  | some k => processKey sms email lo hi st1 k
  | none => st1

/-- The body of `check_and_notify` for one row, abstracted over the two dispatch functions
(the source ignores their return values). -/
def check_and_notifyD (sms email : Nat → Option Bool) (r : Row) : SweepState :=
  intervals.foldl (processInterval sms email) ⟨r, [], []⟩

/-- The source's `check_and_notify` for one row, with its stub dispatchers. -/
def check_and_notify (r : Row) : SweepState :=
  check_and_notifyD send_sms send_email r

/-- The primary/secondary dispatch calls made for one fired field. -/
def dispatchPair (sms email : Nat → Option Bool) (id : Nat) : List DispatchCall :=
  [⟨"sms", id, sms id⟩, ⟨"email", id, email id⟩]

/-- A fresh `offline_sensors` row (all thirteen notification fields at their
zero value) whose elapsed offline time is `e` minutes. -/
def freshRowAt (e : Nat) : Row :=
  { id_in_sources := 1, service := "svc", master_id := "m", master_name := "mn",
    last_heartbeat := 100, minutes_since_last_heartbeat := e,
    notify_30m_primary := 0, notify_1hr_primary := 0, notify_1hr_secondary := 0,
    notify_3hr_primary := 0, notify_3hr_secondary := 0,
    notify_6hr_primary := 0, notify_6hr_secondary := 0,
    notify_12hr_primary := 0, notify_12hr_secondary := 0,
    notify_daily_primary := 0, notify_daily_secondary := 0,
    notify_weekly_primary := 0, notify_weekly_secondary := 0 }

/-- How many notification requests in `ns` were emitted for the field `k`. -/
def countKey (ns : List Notif) (k : String) : Nat :=
  (ns.filter (fun n => n.key = k)).length

/-- The fields for which an evaluation emitted a notification request. -/
def firedKeys (st : SweepState) : List String := st.notifs.map Notif.key

/-- The nine one-shot (latch) fields of the `intervals` table. -/
def latchKeys : List String :=
  ["notify_30m_primary", "notify_1hr_primary", "notify_1hr_secondary",
   "notify_3hr_primary", "notify_3hr_secondary", "notify_6hr_primary",
   "notify_6hr_secondary", "notify_12hr_primary", "notify_12hr_secondary"]

/-- The two daily counter fields. -/
def dailyKeys : List String := ["notify_daily_primary", "notify_daily_secondary"]

/-- The two weekly counter fields. -/
def weeklyKeys : List String := ["notify_weekly_primary", "notify_weekly_secondary"]

/-- The window (lower bound, upper bound) of the interval owning a field,
looked up in the source's `intervals` table. -/
def keyWindow (k : String) : Nat × Option Nat :=
  match intervals.find? (fun iv => decide (iv.2.2.1 = k ∨ iv.2.2.2 = some k)) with
  | some iv => (iv.1, iv.2.1)
  | none => (0, some 0)

/-- The index in the `intervals` table of the tier owning a field (7 for a
string that is no tier field). -/
def keyTier (k : String) : Nat :=
  intervals.findIdx (fun iv => decide (iv.2.2.1 = k ∨ iv.2.2.2 = some k))

/-- The thirteen notification fields of a row, in the column order of
`update_offline_sensors`. -/
def tierFields (a : Row) : List Nat :=
  [a.notify_30m_primary, a.notify_1hr_primary, a.notify_3hr_primary,
   a.notify_6hr_primary, a.notify_12hr_primary, a.notify_daily_primary,
   a.notify_weekly_primary, a.notify_1hr_secondary, a.notify_3hr_secondary,
   a.notify_6hr_secondary, a.notify_12hr_secondary, a.notify_daily_secondary,
   a.notify_weekly_secondary]

/-- A row of the `sources` registry table as read by the two reconciliation
statements; `minutes_since_last_heartbeat` is the value of
`TIMESTAMPDIFF(MINUTE, s.last_heartbeat, NOW())` at the sweep's `NOW()`, and
`master_id` is nullable. -/
structure Source where
  id : Nat
  service : String
  master_id : Option String
  master_name : String
  last_heartbeat : Nat
  minutes_since_last_heartbeat : Nat
deriving DecidableEq

/-- Modelled from the spec: the `offline_sensors` schema is not in the source
tree; per the spec the notification columns are "initialized to zero on
insert", so the row inserted by the `INSERT` column list (identity and
heartbeat columns only) carries zero in all thirteen notification fields. -/
def freshRow (s : Source) (m : String) : Row :=
  { id_in_sources := s.id, service := s.service, master_id := m,
    master_name := s.master_name, last_heartbeat := s.last_heartbeat,
    minutes_since_last_heartbeat := s.minutes_since_last_heartbeat,
    notify_30m_primary := 0, notify_1hr_primary := 0, notify_1hr_secondary := 0,
    notify_3hr_primary := 0, notify_3hr_secondary := 0,
    notify_6hr_primary := 0, notify_6hr_secondary := 0,
    notify_12hr_primary := 0, notify_12hr_secondary := 0,
    notify_daily_primary := 0, notify_daily_secondary := 0,
    notify_weekly_primary := 0, notify_weekly_secondary := 0 }

/-- The `ON DUPLICATE KEY UPDATE` column list of
`add_offline_sensors_to_table`: refresh `service`, `master_id`, `master_name`,
`last_heartbeat` and `minutes_since_last_heartbeat` from the source row, touch
nothing else. -/
def refreshRow (r : Row) (s : Source) (m : String) : Row :=
  { r with
    service := s.service,
    master_id := m,
    master_name := s.master_name,
    last_heartbeat := s.last_heartbeat,
    minutes_since_last_heartbeat := s.minutes_since_last_heartbeat }

/-- Modelled from the spec: the unique key of `offline_sensors` against which
`ON DUPLICATE KEY` fires is not in the source tree; per the spec the upsert is
"keyed by `(sensorId, masterId)`".  With that key, one `INSERT .. ON DUPLICATE
KEY UPDATE` row either refreshes every row of matching key or appends a fresh
row. -/
def upsertRow (store : List Row) (s : Source) (m : String) : List Row :=
  if store.any (fun r => decide (r.id_in_sources = s.id ∧ r.master_id = m)) then
    store.map (fun r =>
      if r.id_in_sources = s.id ∧ r.master_id = m then refreshRow r s m else r)
  else store ++ [freshRow s m]

/-- The source's `add_offline_sensors_to_table`: for every registry row with
`TIMESTAMPDIFF(MINUTE, s.last_heartbeat, NOW()) > 30` and `s.master_id IS NOT
NULL`, upsert an `offline_sensors` row. -/
def add_offline_sensors_to_table (store : List Row) (snapshot : List Source) :
    List Row :=
  snapshot.foldl (fun st s =>
    match s.master_id with
    | none => st
    | some m =>
      if 30 < s.minutes_since_last_heartbeat then upsertRow st s m else st) store

/-- The source's `del_offline_sensors`: delete every `offline_sensors` row joined to a
registry row on `id_in_sources = s.id AND master_id = s.master_id` whose
`TIMESTAMPDIFF(MINUTE, s.last_heartbeat, NOW()) < 30`. -/
def del_offline_sensors (store : List Row) (snapshot : List Source) : List Row :=
  store.filter (fun r =>
    ! snapshot.any (fun s =>
      decide (s.id = r.id_in_sources ∧ s.master_id = some r.master_id ∧
        s.minutes_since_last_heartbeat < 30)))

/-- One reconciliation step of `connect_and_execute`:
`add_offline_sensors_to_table` first, `del_offline_sensors` second, over the
same registry snapshot. -/
def reconcile (store : List Row) (snapshot : List Source) : List Row :=
  del_offline_sensors (add_offline_sensors_to_table store snapshot) snapshot

/-- Some row of key `(i, m)` is in the store. -/
abbrev KeyIn (store : List Row) (i : Nat) (m : String) : Prop :=
  ∃ r ∈ store, r.id_in_sources = i ∧ r.master_id = m

/-- How many rows of key `(i, m)` the store holds. -/
def countKeyRows (store : List Row) (i : Nat) (m : String) : Nat :=
  (store.filter (fun r => decide (r.id_in_sources = i ∧ r.master_id = m))).length

/-- Row `rr` is the refresh of a store row by a qualifying registry row: the
thirteen notification fields are those of the old store row, the identity key
is unchanged, and `service`, `master_name`, `last_heartbeat`,
`minutes_since_last_heartbeat` come from the registry row. -/
abbrev RefreshedFrom (store : List Row) (snap : List Source) (rr : Row) : Prop :=
  ∃ r ∈ store, ∃ s ∈ snap, s.id = r.id_in_sources ∧ s.master_id = some r.master_id ∧
    30 < s.minutes_since_last_heartbeat ∧ tierFields rr = tierFields r ∧
    rr.id_in_sources = r.id_in_sources ∧ rr.master_id = r.master_id ∧
    rr.service = s.service ∧ rr.master_name = s.master_name ∧
    rr.last_heartbeat = s.last_heartbeat ∧
    rr.minutes_since_last_heartbeat = s.minutes_since_last_heartbeat

/-- Row `rr` is a fresh insert for a qualifying registry row with non-null
`master_id`: identity and heartbeat fields come from the registry row and all
thirteen notification fields start at zero. -/
abbrev InsertedFrom (snap : List Source) (rr : Row) : Prop :=
  ∃ s ∈ snap, s.master_id = some rr.master_id ∧ 30 < s.minutes_since_last_heartbeat ∧
    rr.id_in_sources = s.id ∧ rr.service = s.service ∧ rr.master_name = s.master_name ∧
    rr.last_heartbeat = s.last_heartbeat ∧
    rr.minutes_since_last_heartbeat = s.minutes_since_last_heartbeat ∧
    tierFields rr = List.replicate 13 0

@[simp] theorem get_30m_p (r : Row) : r.get "notify_30m_primary" = r.notify_30m_primary := by
  simp [Row.get]

@[simp] theorem get_1hr_p (r : Row) : r.get "notify_1hr_primary" = r.notify_1hr_primary := by
  simp [Row.get]

@[simp] theorem get_1hr_s (r : Row) : r.get "notify_1hr_secondary" = r.notify_1hr_secondary := by
  simp [Row.get]

@[simp] theorem get_3hr_p (r : Row) : r.get "notify_3hr_primary" = r.notify_3hr_primary := by
  simp [Row.get]

@[simp] theorem get_3hr_s (r : Row) : r.get "notify_3hr_secondary" = r.notify_3hr_secondary := by
  simp [Row.get]

@[simp] theorem get_6hr_p (r : Row) : r.get "notify_6hr_primary" = r.notify_6hr_primary := by
  simp [Row.get]

@[simp] theorem get_6hr_s (r : Row) : r.get "notify_6hr_secondary" = r.notify_6hr_secondary := by
  simp [Row.get]

@[simp] theorem get_12hr_p (r : Row) : r.get "notify_12hr_primary" = r.notify_12hr_primary := by
  simp [Row.get]

@[simp] theorem get_12hr_s (r : Row) : r.get "notify_12hr_secondary" = r.notify_12hr_secondary := by
  simp [Row.get]

@[simp] theorem get_daily_p (r : Row) : r.get "notify_daily_primary" = r.notify_daily_primary := by
  simp [Row.get]

@[simp] theorem get_daily_s (r : Row) : r.get "notify_daily_secondary" = r.notify_daily_secondary := by
  simp [Row.get]

@[simp] theorem get_weekly_p (r : Row) : r.get "notify_weekly_primary" = r.notify_weekly_primary := by
  simp [Row.get]

@[simp] theorem get_weekly_s (r : Row) : r.get "notify_weekly_secondary" = r.notify_weekly_secondary := by
  simp [Row.get]

@[simp] theorem set_30m_p (r : Row) (v : Nat) :
    r.set "notify_30m_primary" v = { r with notify_30m_primary := v } := by simp [Row.set]

@[simp] theorem set_1hr_p (r : Row) (v : Nat) :
    r.set "notify_1hr_primary" v = { r with notify_1hr_primary := v } := by simp [Row.set]

@[simp] theorem set_1hr_s (r : Row) (v : Nat) :
    r.set "notify_1hr_secondary" v = { r with notify_1hr_secondary := v } := by simp [Row.set]

@[simp] theorem set_3hr_p (r : Row) (v : Nat) :
    r.set "notify_3hr_primary" v = { r with notify_3hr_primary := v } := by simp [Row.set]

@[simp] theorem set_3hr_s (r : Row) (v : Nat) :
    r.set "notify_3hr_secondary" v = { r with notify_3hr_secondary := v } := by simp [Row.set]

@[simp] theorem set_6hr_p (r : Row) (v : Nat) :
    r.set "notify_6hr_primary" v = { r with notify_6hr_primary := v } := by simp [Row.set]

@[simp] theorem set_6hr_s (r : Row) (v : Nat) :
    r.set "notify_6hr_secondary" v = { r with notify_6hr_secondary := v } := by simp [Row.set]

@[simp] theorem set_12hr_p (r : Row) (v : Nat) :
    r.set "notify_12hr_primary" v = { r with notify_12hr_primary := v } := by simp [Row.set]

@[simp] theorem set_12hr_s (r : Row) (v : Nat) :
    r.set "notify_12hr_secondary" v = { r with notify_12hr_secondary := v } := by simp [Row.set]

@[simp] theorem set_daily_p (r : Row) (v : Nat) :
    r.set "notify_daily_primary" v = { r with notify_daily_primary := v } := by simp [Row.set]

@[simp] theorem set_daily_s (r : Row) (v : Nat) :
    r.set "notify_daily_secondary" v = { r with notify_daily_secondary := v } := by simp [Row.set]

@[simp] theorem set_weekly_p (r : Row) (v : Nat) :
    r.set "notify_weekly_primary" v = { r with notify_weekly_primary := v } := by simp [Row.set]

@[simp] theorem set_weekly_s (r : Row) (v : Nat) :
    r.set "notify_weekly_secondary" v = { r with notify_weekly_secondary := v } := by simp [Row.set]

@[simp] theorem keyFires_30m_p (e : Nat) (mask : Bool) (v : Nat) :
    keyFires e mask "notify_30m_primary" v = (mask && decide (v = 0)) := by
  simp [keyFires,
    show pyStartsWith "notify_30m_primary" "notify_daily" = false from by decide,
    show pyStartsWith "notify_30m_primary" "notify_weekly" = false from by decide]

@[simp] theorem keyFires_1hr_p (e : Nat) (mask : Bool) (v : Nat) :
    keyFires e mask "notify_1hr_primary" v = (mask && decide (v = 0)) := by
  simp [keyFires,
    show pyStartsWith "notify_1hr_primary" "notify_daily" = false from by decide,
    show pyStartsWith "notify_1hr_primary" "notify_weekly" = false from by decide]

@[simp] theorem keyFires_1hr_s (e : Nat) (mask : Bool) (v : Nat) :
    keyFires e mask "notify_1hr_secondary" v = (mask && decide (v = 0)) := by
  simp [keyFires,
    show pyStartsWith "notify_1hr_secondary" "notify_daily" = false from by decide,
    show pyStartsWith "notify_1hr_secondary" "notify_weekly" = false from by decide]

@[simp] theorem keyFires_3hr_p (e : Nat) (mask : Bool) (v : Nat) :
    keyFires e mask "notify_3hr_primary" v = (mask && decide (v = 0)) := by
  simp [keyFires,
    show pyStartsWith "notify_3hr_primary" "notify_daily" = false from by decide,
    show pyStartsWith "notify_3hr_primary" "notify_weekly" = false from by decide]

@[simp] theorem keyFires_3hr_s (e : Nat) (mask : Bool) (v : Nat) :
    keyFires e mask "notify_3hr_secondary" v = (mask && decide (v = 0)) := by
  simp [keyFires,
    show pyStartsWith "notify_3hr_secondary" "notify_daily" = false from by decide,
    show pyStartsWith "notify_3hr_secondary" "notify_weekly" = false from by decide]

@[simp] theorem keyFires_6hr_p (e : Nat) (mask : Bool) (v : Nat) :
    keyFires e mask "notify_6hr_primary" v = (mask && decide (v = 0)) := by
  simp [keyFires,
    show pyStartsWith "notify_6hr_primary" "notify_daily" = false from by decide,
    show pyStartsWith "notify_6hr_primary" "notify_weekly" = false from by decide]

@[simp] theorem keyFires_6hr_s (e : Nat) (mask : Bool) (v : Nat) :
    keyFires e mask "notify_6hr_secondary" v = (mask && decide (v = 0)) := by
  simp [keyFires,
    show pyStartsWith "notify_6hr_secondary" "notify_daily" = false from by decide,
    show pyStartsWith "notify_6hr_secondary" "notify_weekly" = false from by decide]

@[simp] theorem keyFires_12hr_p (e : Nat) (mask : Bool) (v : Nat) :
    keyFires e mask "notify_12hr_primary" v = (mask && decide (v = 0)) := by
  simp [keyFires,
    show pyStartsWith "notify_12hr_primary" "notify_daily" = false from by decide,
    show pyStartsWith "notify_12hr_primary" "notify_weekly" = false from by decide]

@[simp] theorem keyFires_12hr_s (e : Nat) (mask : Bool) (v : Nat) :
    keyFires e mask "notify_12hr_secondary" v = (mask && decide (v = 0)) := by
  simp [keyFires,
    show pyStartsWith "notify_12hr_secondary" "notify_daily" = false from by decide,
    show pyStartsWith "notify_12hr_secondary" "notify_weekly" = false from by decide]

@[simp] theorem keyFires_daily_p (e : Nat) (mask : Bool) (v : Nat) :
    keyFires e mask "notify_daily_primary" v
      = (mask && decide (v < 7) && decide (1440 * (v + 1) ≤ e)) := by
  simp [keyFires,
    show pyStartsWith "notify_daily_primary" "notify_daily" = true from by decide]

@[simp] theorem keyFires_daily_s (e : Nat) (mask : Bool) (v : Nat) :
    keyFires e mask "notify_daily_secondary" v
      = (mask && decide (v < 7) && decide (1440 * (v + 1) ≤ e)) := by
  simp [keyFires,
    show pyStartsWith "notify_daily_secondary" "notify_daily" = true from by decide]

@[simp] theorem keyFires_weekly_p (e : Nat) (mask : Bool) (v : Nat) :
    keyFires e mask "notify_weekly_primary" v
      = (mask && decide (10080 * (v + 1) ≤ e)) := by
  simp [keyFires,
    show pyStartsWith "notify_weekly_primary" "notify_daily" = false from by decide,
    show pyStartsWith "notify_weekly_primary" "notify_weekly" = true from by decide]

@[simp] theorem keyFires_weekly_s (e : Nat) (mask : Bool) (v : Nat) :
    keyFires e mask "notify_weekly_secondary" v
      = (mask && decide (10080 * (v + 1) ≤ e)) := by
  simp [keyFires,
    show pyStartsWith "notify_weekly_secondary" "notify_daily" = false from by decide,
    show pyStartsWith "notify_weekly_secondary" "notify_weekly" = true from by decide]

/-- Closed-form evaluation of `check_and_notifyD`: each of the thirteen fields
fires exactly when its interval's window contains the row's
`minutes_since_last_heartbeat` and the field's own policy test holds, and the
notification requests and dispatch calls are emitted in the interval order of
the source's `intervals` table. -/
theorem check_and_notifyD_eval (sms email : Nat → Option Bool) (r : Row) :
    check_and_notifyD sms email r =
      { row :=
          { r with
            notify_30m_primary :=
              if 30 < r.minutes_since_last_heartbeat ∧ r.minutes_since_last_heartbeat ≤ 60 ∧
                  r.notify_30m_primary = 0 then
                r.notify_30m_primary + 1 else r.notify_30m_primary,
            notify_1hr_primary :=
              if 60 < r.minutes_since_last_heartbeat ∧ r.minutes_since_last_heartbeat ≤ 180 ∧
                  r.notify_1hr_primary = 0 then
                r.notify_1hr_primary + 1 else r.notify_1hr_primary,
            notify_1hr_secondary :=
              if 60 < r.minutes_since_last_heartbeat ∧ r.minutes_since_last_heartbeat ≤ 180 ∧
                  r.notify_1hr_secondary = 0 then
                r.notify_1hr_secondary + 1 else r.notify_1hr_secondary,
            notify_3hr_primary :=
              if 180 < r.minutes_since_last_heartbeat ∧ r.minutes_since_last_heartbeat ≤ 360 ∧
                  r.notify_3hr_primary = 0 then
                r.notify_3hr_primary + 1 else r.notify_3hr_primary,
            notify_3hr_secondary :=
              if 180 < r.minutes_since_last_heartbeat ∧ r.minutes_since_last_heartbeat ≤ 360 ∧
                  r.notify_3hr_secondary = 0 then
                r.notify_3hr_secondary + 1 else r.notify_3hr_secondary,
            notify_6hr_primary :=
              if 360 < r.minutes_since_last_heartbeat ∧ r.minutes_since_last_heartbeat ≤ 720 ∧
                  r.notify_6hr_primary = 0 then
                r.notify_6hr_primary + 1 else r.notify_6hr_primary,
            notify_6hr_secondary :=
              if 360 < r.minutes_since_last_heartbeat ∧ r.minutes_since_last_heartbeat ≤ 720 ∧
                  r.notify_6hr_secondary = 0 then
                r.notify_6hr_secondary + 1 else r.notify_6hr_secondary,
            notify_12hr_primary :=
              if 720 < r.minutes_since_last_heartbeat ∧ r.minutes_since_last_heartbeat ≤ 1440 ∧
                  r.notify_12hr_primary = 0 then
                r.notify_12hr_primary + 1 else r.notify_12hr_primary,
            notify_12hr_secondary :=
              if 720 < r.minutes_since_last_heartbeat ∧ r.minutes_since_last_heartbeat ≤ 1440 ∧
                  r.notify_12hr_secondary = 0 then
                r.notify_12hr_secondary + 1 else r.notify_12hr_secondary,
            notify_daily_primary :=
              if 1440 < r.minutes_since_last_heartbeat ∧ r.minutes_since_last_heartbeat ≤ 10080 ∧
                  r.notify_daily_primary < 7 ∧
                  1440 * (r.notify_daily_primary + 1) ≤ r.minutes_since_last_heartbeat then
                r.notify_daily_primary + 1 else r.notify_daily_primary,
            notify_daily_secondary :=
              if 1440 < r.minutes_since_last_heartbeat ∧ r.minutes_since_last_heartbeat ≤ 10080 ∧
                  r.notify_daily_secondary < 7 ∧
                  1440 * (r.notify_daily_secondary + 1) ≤ r.minutes_since_last_heartbeat then
                r.notify_daily_secondary + 1 else r.notify_daily_secondary,
            notify_weekly_primary :=
              if 10080 < r.minutes_since_last_heartbeat ∧
                  10080 * (r.notify_weekly_primary + 1) ≤ r.minutes_since_last_heartbeat then
                r.notify_weekly_primary + 1 else r.notify_weekly_primary,
            notify_weekly_secondary :=
              if 10080 < r.minutes_since_last_heartbeat ∧
                  10080 * (r.notify_weekly_secondary + 1) ≤ r.minutes_since_last_heartbeat then
                r.notify_weekly_secondary + 1 else r.notify_weekly_secondary },
        notifs :=
          (if 30 < r.minutes_since_last_heartbeat ∧ r.minutes_since_last_heartbeat ≤ 60 ∧
              r.notify_30m_primary = 0 then
            [⟨"notify_30m_primary", r.id_in_sources⟩] else []) ++
          (if 60 < r.minutes_since_last_heartbeat ∧ r.minutes_since_last_heartbeat ≤ 180 ∧
              r.notify_1hr_primary = 0 then
            [⟨"notify_1hr_primary", r.id_in_sources⟩] else []) ++
          (if 60 < r.minutes_since_last_heartbeat ∧ r.minutes_since_last_heartbeat ≤ 180 ∧
              r.notify_1hr_secondary = 0 then
            [⟨"notify_1hr_secondary", r.id_in_sources⟩] else []) ++
          (if 180 < r.minutes_since_last_heartbeat ∧ r.minutes_since_last_heartbeat ≤ 360 ∧
              r.notify_3hr_primary = 0 then
            [⟨"notify_3hr_primary", r.id_in_sources⟩] else []) ++
          (if 180 < r.minutes_since_last_heartbeat ∧ r.minutes_since_last_heartbeat ≤ 360 ∧
              r.notify_3hr_secondary = 0 then
            [⟨"notify_3hr_secondary", r.id_in_sources⟩] else []) ++
          (if 360 < r.minutes_since_last_heartbeat ∧ r.minutes_since_last_heartbeat ≤ 720 ∧
              r.notify_6hr_primary = 0 then
            [⟨"notify_6hr_primary", r.id_in_sources⟩] else []) ++
          (if 360 < r.minutes_since_last_heartbeat ∧ r.minutes_since_last_heartbeat ≤ 720 ∧
              r.notify_6hr_secondary = 0 then
            [⟨"notify_6hr_secondary", r.id_in_sources⟩] else []) ++
          (if 720 < r.minutes_since_last_heartbeat ∧ r.minutes_since_last_heartbeat ≤ 1440 ∧
              r.notify_12hr_primary = 0 then
            [⟨"notify_12hr_primary", r.id_in_sources⟩] else []) ++
          (if 720 < r.minutes_since_last_heartbeat ∧ r.minutes_since_last_heartbeat ≤ 1440 ∧
              r.notify_12hr_secondary = 0 then
            [⟨"notify_12hr_secondary", r.id_in_sources⟩] else []) ++
          (if 1440 < r.minutes_since_last_heartbeat ∧ r.minutes_since_last_heartbeat ≤ 10080 ∧
              r.notify_daily_primary < 7 ∧
              1440 * (r.notify_daily_primary + 1) ≤ r.minutes_since_last_heartbeat then
            [⟨"notify_daily_primary", r.id_in_sources⟩] else []) ++
          (if 1440 < r.minutes_since_last_heartbeat ∧ r.minutes_since_last_heartbeat ≤ 10080 ∧
              r.notify_daily_secondary < 7 ∧
              1440 * (r.notify_daily_secondary + 1) ≤ r.minutes_since_last_heartbeat then
            [⟨"notify_daily_secondary", r.id_in_sources⟩] else []) ++
          (if 10080 < r.minutes_since_last_heartbeat ∧
              10080 * (r.notify_weekly_primary + 1) ≤ r.minutes_since_last_heartbeat then
            [⟨"notify_weekly_primary", r.id_in_sources⟩] else []) ++
          (if 10080 < r.minutes_since_last_heartbeat ∧
              10080 * (r.notify_weekly_secondary + 1) ≤ r.minutes_since_last_heartbeat then
            [⟨"notify_weekly_secondary", r.id_in_sources⟩] else []),
        calls :=
          (if 30 < r.minutes_since_last_heartbeat ∧ r.minutes_since_last_heartbeat ≤ 60 ∧
              r.notify_30m_primary = 0 then
            dispatchPair sms email r.id_in_sources else []) ++
          (if 60 < r.minutes_since_last_heartbeat ∧ r.minutes_since_last_heartbeat ≤ 180 ∧
              r.notify_1hr_primary = 0 then
            dispatchPair sms email r.id_in_sources else []) ++
          (if 60 < r.minutes_since_last_heartbeat ∧ r.minutes_since_last_heartbeat ≤ 180 ∧
              r.notify_1hr_secondary = 0 then
            dispatchPair sms email r.id_in_sources else []) ++
          (if 180 < r.minutes_since_last_heartbeat ∧ r.minutes_since_last_heartbeat ≤ 360 ∧
              r.notify_3hr_primary = 0 then
            dispatchPair sms email r.id_in_sources else []) ++
          (if 180 < r.minutes_since_last_heartbeat ∧ r.minutes_since_last_heartbeat ≤ 360 ∧
              r.notify_3hr_secondary = 0 then
            dispatchPair sms email r.id_in_sources else []) ++
          (if 360 < r.minutes_since_last_heartbeat ∧ r.minutes_since_last_heartbeat ≤ 720 ∧
              r.notify_6hr_primary = 0 then
            dispatchPair sms email r.id_in_sources else []) ++
          (if 360 < r.minutes_since_last_heartbeat ∧ r.minutes_since_last_heartbeat ≤ 720 ∧
              r.notify_6hr_secondary = 0 then
            dispatchPair sms email r.id_in_sources else []) ++
          (if 720 < r.minutes_since_last_heartbeat ∧ r.minutes_since_last_heartbeat ≤ 1440 ∧
              r.notify_12hr_primary = 0 then
            dispatchPair sms email r.id_in_sources else []) ++
          (if 720 < r.minutes_since_last_heartbeat ∧ r.minutes_since_last_heartbeat ≤ 1440 ∧
              r.notify_12hr_secondary = 0 then
            dispatchPair sms email r.id_in_sources else []) ++
          (if 1440 < r.minutes_since_last_heartbeat ∧ r.minutes_since_last_heartbeat ≤ 10080 ∧
              r.notify_daily_primary < 7 ∧
              1440 * (r.notify_daily_primary + 1) ≤ r.minutes_since_last_heartbeat then
            dispatchPair sms email r.id_in_sources else []) ++
          (if 1440 < r.minutes_since_last_heartbeat ∧ r.minutes_since_last_heartbeat ≤ 10080 ∧
              r.notify_daily_secondary < 7 ∧
              1440 * (r.notify_daily_secondary + 1) ≤ r.minutes_since_last_heartbeat then
            dispatchPair sms email r.id_in_sources else []) ++
          (if 10080 < r.minutes_since_last_heartbeat ∧
              10080 * (r.notify_weekly_primary + 1) ≤ r.minutes_since_last_heartbeat then
            dispatchPair sms email r.id_in_sources else []) ++
          (if 10080 < r.minutes_since_last_heartbeat ∧
              10080 * (r.notify_weekly_secondary + 1) ≤ r.minutes_since_last_heartbeat then
            dispatchPair sms email r.id_in_sources else []) } := by
  by_cases h1 : r.minutes_since_last_heartbeat ≤ 30
  · have f1 : ¬ 30 < r.minutes_since_last_heartbeat := by omega
    have f2 : ¬ 60 < r.minutes_since_last_heartbeat := by omega
    have f3 : ¬ 180 < r.minutes_since_last_heartbeat := by omega
    have f4 : ¬ 360 < r.minutes_since_last_heartbeat := by omega
    have f5 : ¬ 720 < r.minutes_since_last_heartbeat := by omega
    have f6 : ¬ 1440 < r.minutes_since_last_heartbeat := by omega
    have f7 : ¬ 10080 < r.minutes_since_last_heartbeat := by omega
    simp [*, check_and_notifyD, intervals, processInterval, processKey, inWindow,
      dispatchPair, List.foldl_cons, List.foldl_nil]
  · by_cases h2 : r.minutes_since_last_heartbeat ≤ 60
    · have t1 : 30 < r.minutes_since_last_heartbeat := by omega
      have f2 : ¬ 60 < r.minutes_since_last_heartbeat := by omega
      have f3 : ¬ 180 < r.minutes_since_last_heartbeat := by omega
      have f4 : ¬ 360 < r.minutes_since_last_heartbeat := by omega
      have f5 : ¬ 720 < r.minutes_since_last_heartbeat := by omega
      have f6 : ¬ 1440 < r.minutes_since_last_heartbeat := by omega
      have f7 : ¬ 10080 < r.minutes_since_last_heartbeat := by omega
      by_cases hp : r.notify_30m_primary = 0 <;>
        simp [*, check_and_notifyD, intervals, processInterval, processKey, inWindow,
          dispatchPair, List.foldl_cons, List.foldl_nil]
    · by_cases h3 : r.minutes_since_last_heartbeat ≤ 180
      · have t1 : 30 < r.minutes_since_last_heartbeat := by omega
        have t2 : 60 < r.minutes_since_last_heartbeat := by omega
        have f3 : ¬ 180 < r.minutes_since_last_heartbeat := by omega
        have f4 : ¬ 360 < r.minutes_since_last_heartbeat := by omega
        have f5 : ¬ 720 < r.minutes_since_last_heartbeat := by omega
        have f6 : ¬ 1440 < r.minutes_since_last_heartbeat := by omega
        have f7 : ¬ 10080 < r.minutes_since_last_heartbeat := by omega
        by_cases hp : r.notify_1hr_primary = 0 <;>
          by_cases hs : r.notify_1hr_secondary = 0 <;>
            simp [*, check_and_notifyD, intervals, processInterval, processKey, inWindow,
              dispatchPair, List.foldl_cons, List.foldl_nil]
      · by_cases h4 : r.minutes_since_last_heartbeat ≤ 360
        · have t1 : 30 < r.minutes_since_last_heartbeat := by omega
          have t2 : 60 < r.minutes_since_last_heartbeat := by omega
          have t3 : 180 < r.minutes_since_last_heartbeat := by omega
          have f4 : ¬ 360 < r.minutes_since_last_heartbeat := by omega
          have f5 : ¬ 720 < r.minutes_since_last_heartbeat := by omega
          have f6 : ¬ 1440 < r.minutes_since_last_heartbeat := by omega
          have f7 : ¬ 10080 < r.minutes_since_last_heartbeat := by omega
          by_cases hp : r.notify_3hr_primary = 0 <;>
            by_cases hs : r.notify_3hr_secondary = 0 <;>
              simp [*, check_and_notifyD, intervals, processInterval, processKey, inWindow,
                dispatchPair, List.foldl_cons, List.foldl_nil]
        · by_cases h5 : r.minutes_since_last_heartbeat ≤ 720
          · have t1 : 30 < r.minutes_since_last_heartbeat := by omega
            have t2 : 60 < r.minutes_since_last_heartbeat := by omega
            have t3 : 180 < r.minutes_since_last_heartbeat := by omega
            have t4 : 360 < r.minutes_since_last_heartbeat := by omega
            have f5 : ¬ 720 < r.minutes_since_last_heartbeat := by omega
            have f6 : ¬ 1440 < r.minutes_since_last_heartbeat := by omega
            have f7 : ¬ 10080 < r.minutes_since_last_heartbeat := by omega
            by_cases hp : r.notify_6hr_primary = 0 <;>
              by_cases hs : r.notify_6hr_secondary = 0 <;>
                simp [*, check_and_notifyD, intervals, processInterval, processKey, inWindow,
                  dispatchPair, List.foldl_cons, List.foldl_nil]
          · by_cases h6 : r.minutes_since_last_heartbeat ≤ 1440
            · have t1 : 30 < r.minutes_since_last_heartbeat := by omega
              have t2 : 60 < r.minutes_since_last_heartbeat := by omega
              have t3 : 180 < r.minutes_since_last_heartbeat := by omega
              have t4 : 360 < r.minutes_since_last_heartbeat := by omega
              have t5 : 720 < r.minutes_since_last_heartbeat := by omega
              have f6 : ¬ 1440 < r.minutes_since_last_heartbeat := by omega
              have f7 : ¬ 10080 < r.minutes_since_last_heartbeat := by omega
              by_cases hp : r.notify_12hr_primary = 0 <;>
                by_cases hs : r.notify_12hr_secondary = 0 <;>
                  simp [*, check_and_notifyD, intervals, processInterval, processKey, inWindow,
                    dispatchPair, List.foldl_cons, List.foldl_nil]
            · by_cases h7 : r.minutes_since_last_heartbeat ≤ 10080
              · have t1 : 30 < r.minutes_since_last_heartbeat := by omega
                have t2 : 60 < r.minutes_since_last_heartbeat := by omega
                have t3 : 180 < r.minutes_since_last_heartbeat := by omega
                have t4 : 360 < r.minutes_since_last_heartbeat := by omega
                have t5 : 720 < r.minutes_since_last_heartbeat := by omega
                have t6 : 1440 < r.minutes_since_last_heartbeat := by omega
                have f7 : ¬ 10080 < r.minutes_since_last_heartbeat := by omega
                by_cases hp1 : r.notify_daily_primary < 7 <;>
                  by_cases hp2 :
                      1440 * (r.notify_daily_primary + 1) ≤ r.minutes_since_last_heartbeat <;>
                    by_cases hs1 : r.notify_daily_secondary < 7 <;>
                      by_cases hs2 :
                          1440 * (r.notify_daily_secondary + 1) ≤
                            r.minutes_since_last_heartbeat <;>
                        simp [*, check_and_notifyD, intervals, processInterval, processKey,
                          inWindow, dispatchPair, List.foldl_cons, List.foldl_nil]
              · have t1 : 30 < r.minutes_since_last_heartbeat := by omega
                have t2 : 60 < r.minutes_since_last_heartbeat := by omega
                have t3 : 180 < r.minutes_since_last_heartbeat := by omega
                have t4 : 360 < r.minutes_since_last_heartbeat := by omega
                have t5 : 720 < r.minutes_since_last_heartbeat := by omega
                have t6 : 1440 < r.minutes_since_last_heartbeat := by omega
                have t7 : 10080 < r.minutes_since_last_heartbeat := by omega
                by_cases hp :
                    10080 * (r.notify_weekly_primary + 1) ≤ r.minutes_since_last_heartbeat <;>
                  by_cases hs :
                      10080 * (r.notify_weekly_secondary + 1) ≤
                        r.minutes_since_last_heartbeat <;>
                    simp [*, check_and_notifyD, intervals, processInterval, processKey,
                      inWindow, dispatchPair, List.foldl_cons, List.foldl_nil]

@[simp] theorem countKey_nil (k : String) : countKey [] k = 0 := rfl

@[simp] theorem countKey_append (a b : List Notif) (k : String) :
    countKey (a ++ b) k = countKey a k + countKey b k := by
  simp [countKey]

@[simp] theorem countKey_singleton (n : Notif) (k : String) :
    countKey [n] k = if n.key = k then 1 else 0 := by
  by_cases h : n.key = k <;> simp [countKey, List.filter, h]

@[simp] theorem countKey_cons (n : Notif) (l : List Notif) (k : String) :
    countKey (n :: l) k = (if n.key = k then 1 else 0) + countKey l k := by
  by_cases h : n.key = k <;> simp [countKey, List.filter_cons, h] <;> omega

@[simp] theorem countKey_ite (c : Prop) [Decidable c] (a b : List Notif) (k : String) :
    countKey (if c then a else b) k = if c then countKey a k else countKey b k := by
  split_ifs <;> rfl

@[simp] theorem map_key_ite (c : Prop) [Decidable c] (a b : List Notif) :
    (if c then a else b).map Notif.key = if c then a.map Notif.key else b.map Notif.key := by
  split_ifs <;> rfl

@[simp] theorem mem_ite_singleton (c : Prop) [Decidable c] (x y : String) :
    (x ∈ if c then [y] else ([] : List String)) ↔ c ∧ x = y := by
  split_ifs with h <;> simp [h]

@[simp] theorem keyWindow_30m_p : keyWindow "notify_30m_primary" = (30, some 60) := by decide

@[simp] theorem keyWindow_1hr_p : keyWindow "notify_1hr_primary" = (60, some 180) := by decide

@[simp] theorem keyWindow_1hr_s : keyWindow "notify_1hr_secondary" = (60, some 180) := by
  decide

@[simp] theorem keyWindow_3hr_p : keyWindow "notify_3hr_primary" = (180, some 360) := by
  decide

@[simp] theorem keyWindow_3hr_s : keyWindow "notify_3hr_secondary" = (180, some 360) := by
  decide

@[simp] theorem keyWindow_6hr_p : keyWindow "notify_6hr_primary" = (360, some 720) := by
  decide

@[simp] theorem keyWindow_6hr_s : keyWindow "notify_6hr_secondary" = (360, some 720) := by
  decide

@[simp] theorem keyWindow_12hr_p : keyWindow "notify_12hr_primary" = (720, some 1440) := by
  decide

@[simp] theorem keyWindow_12hr_s : keyWindow "notify_12hr_secondary" = (720, some 1440) := by
  decide

@[simp] theorem keyWindow_daily_p : keyWindow "notify_daily_primary" = (1440, some 10080) := by
  decide

@[simp] theorem keyWindow_daily_s :
    keyWindow "notify_daily_secondary" = (1440, some 10080) := by decide

@[simp] theorem keyWindow_weekly_p : keyWindow "notify_weekly_primary" = (10080, none) := by
  decide

@[simp] theorem keyWindow_weekly_s : keyWindow "notify_weekly_secondary" = (10080, none) := by
  decide

@[simp] theorem keyTier_30m_p : keyTier "notify_30m_primary" = 0 := by decide

@[simp] theorem keyTier_1hr_p : keyTier "notify_1hr_primary" = 1 := by decide

@[simp] theorem keyTier_1hr_s : keyTier "notify_1hr_secondary" = 1 := by decide

@[simp] theorem keyTier_3hr_p : keyTier "notify_3hr_primary" = 2 := by decide

@[simp] theorem keyTier_3hr_s : keyTier "notify_3hr_secondary" = 2 := by decide

@[simp] theorem keyTier_6hr_p : keyTier "notify_6hr_primary" = 3 := by decide

@[simp] theorem keyTier_6hr_s : keyTier "notify_6hr_secondary" = 3 := by decide

@[simp] theorem keyTier_12hr_p : keyTier "notify_12hr_primary" = 4 := by decide

@[simp] theorem keyTier_12hr_s : keyTier "notify_12hr_secondary" = 4 := by decide

@[simp] theorem keyTier_daily_p : keyTier "notify_daily_primary" = 5 := by decide

@[simp] theorem keyTier_daily_s : keyTier "notify_daily_secondary" = 5 := by decide

@[simp] theorem keyTier_weekly_p : keyTier "notify_weekly_primary" = 6 := by decide

@[simp] theorem keyTier_weekly_s : keyTier "notify_weekly_secondary" = 6 := by decide

/-- The fields fired by one evaluation, characterized: a field is fired iff its
window contains the row's elapsed minutes and its own policy test holds. -/
theorem mem_firedKeys (sms email : Nat → Option Bool) (r : Row) (k : String) :
    k ∈ firedKeys (check_and_notifyD sms email r) ↔
      ((30 < r.minutes_since_last_heartbeat ∧ r.minutes_since_last_heartbeat ≤ 60 ∧
          r.notify_30m_primary = 0) ∧ k = "notify_30m_primary") ∨
      ((60 < r.minutes_since_last_heartbeat ∧ r.minutes_since_last_heartbeat ≤ 180 ∧
          r.notify_1hr_primary = 0) ∧ k = "notify_1hr_primary") ∨
      ((60 < r.minutes_since_last_heartbeat ∧ r.minutes_since_last_heartbeat ≤ 180 ∧
          r.notify_1hr_secondary = 0) ∧ k = "notify_1hr_secondary") ∨
      ((180 < r.minutes_since_last_heartbeat ∧ r.minutes_since_last_heartbeat ≤ 360 ∧
          r.notify_3hr_primary = 0) ∧ k = "notify_3hr_primary") ∨
      ((180 < r.minutes_since_last_heartbeat ∧ r.minutes_since_last_heartbeat ≤ 360 ∧
          r.notify_3hr_secondary = 0) ∧ k = "notify_3hr_secondary") ∨
      ((360 < r.minutes_since_last_heartbeat ∧ r.minutes_since_last_heartbeat ≤ 720 ∧
          r.notify_6hr_primary = 0) ∧ k = "notify_6hr_primary") ∨
      ((360 < r.minutes_since_last_heartbeat ∧ r.minutes_since_last_heartbeat ≤ 720 ∧
          r.notify_6hr_secondary = 0) ∧ k = "notify_6hr_secondary") ∨
      ((720 < r.minutes_since_last_heartbeat ∧ r.minutes_since_last_heartbeat ≤ 1440 ∧
          r.notify_12hr_primary = 0) ∧ k = "notify_12hr_primary") ∨
      ((720 < r.minutes_since_last_heartbeat ∧ r.minutes_since_last_heartbeat ≤ 1440 ∧
          r.notify_12hr_secondary = 0) ∧ k = "notify_12hr_secondary") ∨
      ((1440 < r.minutes_since_last_heartbeat ∧ r.minutes_since_last_heartbeat ≤ 10080 ∧
          r.notify_daily_primary < 7 ∧
          1440 * (r.notify_daily_primary + 1) ≤ r.minutes_since_last_heartbeat) ∧
        k = "notify_daily_primary") ∨
      ((1440 < r.minutes_since_last_heartbeat ∧ r.minutes_since_last_heartbeat ≤ 10080 ∧
          r.notify_daily_secondary < 7 ∧
          1440 * (r.notify_daily_secondary + 1) ≤ r.minutes_since_last_heartbeat) ∧
        k = "notify_daily_secondary") ∨
      ((10080 < r.minutes_since_last_heartbeat ∧
          10080 * (r.notify_weekly_primary + 1) ≤ r.minutes_since_last_heartbeat) ∧
        k = "notify_weekly_primary") ∨
      ((10080 < r.minutes_since_last_heartbeat ∧
          10080 * (r.notify_weekly_secondary + 1) ≤ r.minutes_since_last_heartbeat) ∧
        k = "notify_weekly_secondary") := by
  rw [check_and_notifyD_eval]
  simp [firedKeys]

/-- C1: Latch policy: one `check_and_notify` evaluation emits exactly one
notification request for a latch field iff the row's elapsed minutes lie in
that field's tier window and the field is unset (zero), in which case the field
is incremented from 0 to 1 (set); otherwise the field is left unchanged (so a
set field never reverts).  A fresh record with elapsed 45 has exactly
`notify_30m_primary` go from unset to set, with one notification request. -/
theorem C1_latch_policy :
    (∀ (r : Row) (k : String), k ∈ latchKeys →
      countKey (check_and_notify r).notifs k =
        (if inWindow r.minutes_since_last_heartbeat (keyWindow k).1 (keyWindow k).2 = true ∧
            r.get k = 0 then 1 else 0) ∧
      (check_and_notify r).row.get k =
        (if inWindow r.minutes_since_last_heartbeat (keyWindow k).1 (keyWindow k).2 = true ∧
            r.get k = 0 then r.get k + 1 else r.get k)) ∧
    (check_and_notify (freshRowAt 45)).row =
      { freshRowAt 45 with notify_30m_primary := 1 } ∧
    (check_and_notify (freshRowAt 45)).notifs = [⟨"notify_30m_primary", 1⟩] := by
  refine ⟨fun r k hk => ?_, by decide, by decide⟩
  fin_cases hk <;>
    exact ⟨by simp [check_and_notify, check_and_notifyD_eval, inWindow, and_assoc],
           by simp [check_and_notify, check_and_notifyD_eval, inWindow, and_assoc]⟩

/-- Witness for C1: the fresh row with elapsed 45 at `notify_30m_primary`. -/
theorem C1_latch_policy_witness :
    countKey (check_and_notify (freshRowAt 45)).notifs "notify_30m_primary" =
      (if inWindow (freshRowAt 45).minutes_since_last_heartbeat
          (keyWindow "notify_30m_primary").1 (keyWindow "notify_30m_primary").2 = true ∧
          (freshRowAt 45).get "notify_30m_primary" = 0 then 1 else 0) ∧
    (check_and_notify (freshRowAt 45)).row.get "notify_30m_primary" =
      (if inWindow (freshRowAt 45).minutes_since_last_heartbeat
          (keyWindow "notify_30m_primary").1 (keyWindow "notify_30m_primary").2 = true ∧
          (freshRowAt 45).get "notify_30m_primary" = 0 then
        (freshRowAt 45).get "notify_30m_primary" + 1
      else (freshRowAt 45).get "notify_30m_primary") :=
  C1_latch_policy.1 (freshRowAt 45) "notify_30m_primary" (by decide)

/-- C3: Tier window semantics: a field only ever fires when the row's elapsed
minutes lie in its tier's window (lower bound exclusive, upper bound
inclusive); a window the record has passed is never retroactively fired.  A
fresh record with elapsed 90 fires `notify_1hr_primary` and
`notify_1hr_secondary` and leaves `notify_30m_primary` unset. -/
theorem C3_window_semantics :
    (∀ (r : Row) (k : String), k ∈ firedKeys (check_and_notify r) →
      inWindow r.minutes_since_last_heartbeat (keyWindow k).1 (keyWindow k).2 = true) ∧
    (check_and_notify (freshRowAt 90)).row =
      { freshRowAt 90 with notify_1hr_primary := 1, notify_1hr_secondary := 1 } ∧
    (check_and_notify (freshRowAt 90)).notifs =
      [⟨"notify_1hr_primary", 1⟩, ⟨"notify_1hr_secondary", 1⟩] ∧
    (check_and_notify (freshRowAt 90)).row.notify_30m_primary = 0 := by
  refine ⟨fun r k hk => ?_, by decide, by decide, by decide⟩
  rw [show check_and_notify r = check_and_notifyD send_sms send_email r from rfl,
    mem_firedKeys] at hk
  rcases hk with ⟨⟨h1, h2, h3⟩, rfl⟩ | ⟨⟨h1, h2, h3⟩, rfl⟩ | ⟨⟨h1, h2, h3⟩, rfl⟩ |
    ⟨⟨h1, h2, h3⟩, rfl⟩ | ⟨⟨h1, h2, h3⟩, rfl⟩ | ⟨⟨h1, h2, h3⟩, rfl⟩ | ⟨⟨h1, h2, h3⟩, rfl⟩ |
    ⟨⟨h1, h2, h3⟩, rfl⟩ | ⟨⟨h1, h2, h3⟩, rfl⟩ | ⟨⟨h1, h2, h3, h4⟩, rfl⟩ |
    ⟨⟨h1, h2, h3, h4⟩, rfl⟩ | ⟨⟨h1, h2⟩, rfl⟩ | ⟨⟨h1, h2⟩, rfl⟩ <;>
    simp [inWindow, h1, h2]

/-- Witness for C3: the fresh row with elapsed 90 at `notify_1hr_primary`. -/
theorem C3_window_semantics_witness :
    inWindow (freshRowAt 90).minutes_since_last_heartbeat
      (keyWindow "notify_1hr_primary").1 (keyWindow "notify_1hr_primary").2 = true :=
  C3_window_semantics.1 (freshRowAt 90) "notify_1hr_primary" (by decide)

/-- C9: the updated row and the emitted notification requests of
`check_and_notify` do not depend on the outcomes reported by the two dispatch
functions: evaluating with arbitrary dispatch outcomes gives the same row and
requests as the source's stubs, so a dispatch failure cannot prevent a fired
tier from being marked as notified. -/
theorem C9_dispatch_independence :
    ∀ (sms email : Nat → Option Bool) (r : Row),
      (check_and_notifyD sms email r).row = (check_and_notify r).row ∧
      (check_and_notifyD sms email r).notifs = (check_and_notify r).notifs := by
  intro sms email r
  exact ⟨by simp [check_and_notify, check_and_notifyD_eval],
         by simp [check_and_notify, check_and_notifyD_eval]⟩

/-- C10: frame condition of `check_and_notify`: the six identity and heartbeat
fields are never modified, and a row with elapsed minutes at most 30 is
returned entirely unchanged with no notification request and no dispatch
call. -/
theorem C10_frame_condition :
    ∀ r : Row,
      ((check_and_notify r).row.id_in_sources = r.id_in_sources ∧
       (check_and_notify r).row.service = r.service ∧
       (check_and_notify r).row.master_id = r.master_id ∧
       (check_and_notify r).row.master_name = r.master_name ∧
       (check_and_notify r).row.last_heartbeat = r.last_heartbeat ∧
       (check_and_notify r).row.minutes_since_last_heartbeat =
         r.minutes_since_last_heartbeat) ∧
      (r.minutes_since_last_heartbeat ≤ 30 → check_and_notify r = ⟨r, [], []⟩) := by
  intro r
  constructor
  · refine ⟨?_, ?_, ?_, ?_, ?_, ?_⟩ <;> simp [check_and_notify, check_and_notifyD_eval]
  · intro h
    have f1 : ¬ 30 < r.minutes_since_last_heartbeat := by omega
    have f2 : ¬ 60 < r.minutes_since_last_heartbeat := by omega
    have f3 : ¬ 180 < r.minutes_since_last_heartbeat := by omega
    have f4 : ¬ 360 < r.minutes_since_last_heartbeat := by omega
    have f5 : ¬ 720 < r.minutes_since_last_heartbeat := by omega
    have f6 : ¬ 1440 < r.minutes_since_last_heartbeat := by omega
    have f7 : ¬ 10080 < r.minutes_since_last_heartbeat := by omega
    simp [check_and_notify, check_and_notifyD_eval, f1, f2, f3, f4, f5, f6, f7]

/-- Witness for C10: the fresh row with elapsed 20 is returned unchanged. -/
theorem C10_frame_condition_witness :
    ((check_and_notify (freshRowAt 20)).row.id_in_sources = (freshRowAt 20).id_in_sources ∧
     (check_and_notify (freshRowAt 20)).row.service = (freshRowAt 20).service ∧
     (check_and_notify (freshRowAt 20)).row.master_id = (freshRowAt 20).master_id ∧
     (check_and_notify (freshRowAt 20)).row.master_name = (freshRowAt 20).master_name ∧
     (check_and_notify (freshRowAt 20)).row.last_heartbeat = (freshRowAt 20).last_heartbeat ∧
     (check_and_notify (freshRowAt 20)).row.minutes_since_last_heartbeat =
       (freshRowAt 20).minutes_since_last_heartbeat) ∧
    check_and_notify (freshRowAt 20) = ⟨freshRowAt 20, [], []⟩ :=
  ⟨(C10_frame_condition (freshRowAt 20)).1,
   (C10_frame_condition (freshRowAt 20)).2 (by decide)⟩

/-- Counterexample for C2: the daily tier does not fire at elapsed exactly
1440 (the claim's schedule "fires at elapsed = 1440, 2880, …" is wrong at its
first point): the window `(1440, 10080]` is lower-exclusive, so a row with
counter 0 and elapsed exactly 1440 emits no daily notification and keeps
counter 0 (elapsed 1440 still belongs to the 12-hour window). -/
theorem C2_daily_counterexample :
    (freshRowAt 1440).notify_daily_primary = 0 ∧
    (freshRowAt 1440).minutes_since_last_heartbeat = 1440 ∧
    countKey (check_and_notify (freshRowAt 1440)).notifs "notify_daily_primary" = 0 ∧
    (check_and_notify (freshRowAt 1440)).row.notify_daily_primary = 0 := by decide

/-- C2 (amended): a daily counter field with value `n` fires iff elapsed lies
in `(1440, 10080]` and `n < 7` and `elapsed ≥ 1440·(n+1)`; on fire the counter
is incremented by exactly 1 and exactly one notification request is emitted.
Over a continuous episode this puts the first daily fire strictly after 1440
(not at 1440 exactly), then at 2880, 4320, …, with at most 7 fires.  A record
with `notify_daily_primary = 0` and elapsed 1450 fires and its counter becomes
1. -/
theorem C2_daily_policy :
    (∀ (r : Row) (k : String), k ∈ dailyKeys →
      countKey (check_and_notify r).notifs k =
        (if 1440 < r.minutes_since_last_heartbeat ∧ r.minutes_since_last_heartbeat ≤ 10080 ∧
            r.get k < 7 ∧ 1440 * (r.get k + 1) ≤ r.minutes_since_last_heartbeat
         then 1 else 0) ∧
      (check_and_notify r).row.get k =
        (if 1440 < r.minutes_since_last_heartbeat ∧ r.minutes_since_last_heartbeat ≤ 10080 ∧
            r.get k < 7 ∧ 1440 * (r.get k + 1) ≤ r.minutes_since_last_heartbeat
         then r.get k + 1 else r.get k)) ∧
    (check_and_notify (freshRowAt 1450)).row.notify_daily_primary = 1 ∧
    countKey (check_and_notify (freshRowAt 1450)).notifs "notify_daily_primary" = 1 := by
  refine ⟨fun r k hk => ?_, by decide, by decide⟩
  fin_cases hk <;>
    exact ⟨by simp [check_and_notify, check_and_notifyD_eval],
           by simp [check_and_notify, check_and_notifyD_eval]⟩

/-- Witness for C2 (amended): the fresh row with elapsed 1450 at
`notify_daily_primary`. -/
theorem C2_daily_policy_witness :
    countKey (check_and_notify (freshRowAt 1450)).notifs "notify_daily_primary" =
      (if 1440 < (freshRowAt 1450).minutes_since_last_heartbeat ∧
          (freshRowAt 1450).minutes_since_last_heartbeat ≤ 10080 ∧
          (freshRowAt 1450).get "notify_daily_primary" < 7 ∧
          1440 * ((freshRowAt 1450).get "notify_daily_primary" + 1) ≤
            (freshRowAt 1450).minutes_since_last_heartbeat
       then 1 else 0) ∧
    (check_and_notify (freshRowAt 1450)).row.get "notify_daily_primary" =
      (if 1440 < (freshRowAt 1450).minutes_since_last_heartbeat ∧
          (freshRowAt 1450).minutes_since_last_heartbeat ≤ 10080 ∧
          (freshRowAt 1450).get "notify_daily_primary" < 7 ∧
          1440 * ((freshRowAt 1450).get "notify_daily_primary" + 1) ≤
            (freshRowAt 1450).minutes_since_last_heartbeat
       then (freshRowAt 1450).get "notify_daily_primary" + 1
       else (freshRowAt 1450).get "notify_daily_primary") :=
  C2_daily_policy.1 (freshRowAt 1450) "notify_daily_primary" (by decide)

/-- C7: weekly counter policy: for a row in the weekly window
(`elapsed > 10080`), a weekly counter field with value `n` fires iff
`elapsed ≥ 10080·(n+1)`, with no upper cap on `n`; for every counter value `n`
there is an elapsed time at which the field fires again (once every 10080
minutes indefinitely). -/
theorem C7_weekly_policy :
    (∀ (r : Row) (k : String), k ∈ weeklyKeys →
      10080 < r.minutes_since_last_heartbeat →
      countKey (check_and_notify r).notifs k =
        (if 10080 * (r.get k + 1) ≤ r.minutes_since_last_heartbeat then 1 else 0) ∧
      (check_and_notify r).row.get k =
        (if 10080 * (r.get k + 1) ≤ r.minutes_since_last_heartbeat then r.get k + 1
         else r.get k)) ∧
    (∀ n : Nat,
      countKey (check_and_notify
        { freshRowAt (10080 * (n + 1) + 1) with notify_weekly_primary := n }).notifs
        "notify_weekly_primary" = 1) := by
  constructor
  · intro r k hk h
    fin_cases hk <;>
      exact ⟨by simp [check_and_notify, check_and_notifyD_eval, h],
             by simp [check_and_notify, check_and_notifyD_eval, h]⟩
  · intro n
    have h1 : 10080 < 10080 * (n + 1) + 1 := by omega
    have h2 : 10080 * (n + 1) ≤ 10080 * (n + 1) + 1 := by omega
    simp [check_and_notify, check_and_notifyD_eval, freshRowAt, h1, h2]

/-- Witness for C7: a row with weekly counter 1 and elapsed 20200 fires the
weekly primary field again. -/
theorem C7_weekly_policy_witness :
    countKey (check_and_notify
        { freshRowAt 20200 with notify_weekly_primary := 1 }).notifs
        "notify_weekly_primary" =
      (if 10080 *
          (({ freshRowAt 20200 with notify_weekly_primary := 1 } : Row).get
            "notify_weekly_primary" + 1) ≤
          ({ freshRowAt 20200 with notify_weekly_primary := 1 } : Row).minutes_since_last_heartbeat
       then 1 else 0) ∧
    (check_and_notify { freshRowAt 20200 with notify_weekly_primary := 1 }).row.get
        "notify_weekly_primary" =
      (if 10080 *
          (({ freshRowAt 20200 with notify_weekly_primary := 1 } : Row).get
            "notify_weekly_primary" + 1) ≤
          ({ freshRowAt 20200 with notify_weekly_primary := 1 } : Row).minutes_since_last_heartbeat
       then ({ freshRowAt 20200 with notify_weekly_primary := 1 } : Row).get
          "notify_weekly_primary" + 1
       else ({ freshRowAt 20200 with notify_weekly_primary := 1 } : Row).get
          "notify_weekly_primary") :=
  C7_weekly_policy.1 { freshRowAt 20200 with notify_weekly_primary := 1 }
    "notify_weekly_primary" (by decide) (by decide)

/-- Counterexample for C5: re-evaluating the same `(record, now)` pair is not
idempotent.  A fresh row with elapsed 2980 fires the daily counters (0 → 1) on
the first evaluation; a second evaluation of the updated row at the same `now`
fires them again (1 → 2, since 2980 ≥ 1440·2) and emits further notification
requests. -/
theorem C5_counterexample :
    (check_and_notify (freshRowAt 2980)).row.notify_daily_primary = 1 ∧
    (check_and_notify ((check_and_notify (freshRowAt 2980)).row)).notifs ≠ [] ∧
    (check_and_notify ((check_and_notify (freshRowAt 2980)).row)).row.notify_daily_primary
      = 2 := by decide

/-- C5 (amended): re-evaluating the same `(record, now)` pair after one
evaluation never fires a latch field a second time: any field fired by the
second evaluation is one of the daily or weekly counter fields (which catch up
by one period per evaluation while the counter still lags elapsed). -/
theorem C5_reevaluation_latch_idempotent :
    ∀ (r : Row) (k : String),
      k ∈ firedKeys (check_and_notify ((check_and_notify r).row)) →
        k ∈ dailyKeys ∨ k ∈ weeklyKeys := by
  intro r k hk
  rw [show check_and_notify ((check_and_notify r).row)
        = check_and_notifyD send_sms send_email ((check_and_notify r).row) from rfl,
    mem_firedKeys] at hk
  rw [show check_and_notify r = check_and_notifyD send_sms send_email r from rfl,
    check_and_notifyD_eval] at hk
  simp only [] at hk
  rcases hk with ⟨⟨h1, h2, h3⟩, rfl⟩ | ⟨⟨h1, h2, h3⟩, rfl⟩ | ⟨⟨h1, h2, h3⟩, rfl⟩ |
    ⟨⟨h1, h2, h3⟩, rfl⟩ | ⟨⟨h1, h2, h3⟩, rfl⟩ | ⟨⟨h1, h2, h3⟩, rfl⟩ | ⟨⟨h1, h2, h3⟩, rfl⟩ |
    ⟨⟨h1, h2, h3⟩, rfl⟩ | ⟨⟨h1, h2, h3⟩, rfl⟩ | ⟨⟨h1, h2, h3, h4⟩, rfl⟩ |
    ⟨⟨h1, h2, h3, h4⟩, rfl⟩ | ⟨⟨h1, h2⟩, rfl⟩ | ⟨⟨h1, h2⟩, rfl⟩ <;>
    first
      | decide
      | (split_ifs at h3 <;> omega)

/-- Witness for C5 (amended): at the fresh row with elapsed 2980, the daily
primary field is fired by the second evaluation, and it is a counter field. -/
theorem C5_reevaluation_witness :
    "notify_daily_primary" ∈ dailyKeys ∨ "notify_daily_primary" ∈ weeklyKeys :=
  C5_reevaluation_latch_idempotent (freshRowAt 2980) "notify_daily_primary" (by decide)

/-- All elements of a list that are pairwise equal leave at most one element
after deduplication. -/
theorem dedup_length_le_one {α : Type} [DecidableEq α] (l : List α)
    (h : ∀ a ∈ l, ∀ b ∈ l, a = b) : l.dedup.length ≤ 1 := by
  induction l with
  | nil => simp
  | cons x xs ih =>
    rcases xs with _ | ⟨y, ys⟩
    · simp
    · have hxy : x = y := h x (by simp) y (by simp)
      rw [List.dedup_cons_of_mem (List.mem_cons.2 (Or.inl hxy))]
      exact ih fun a ha b hb =>
        h a (List.mem_cons_of_mem _ ha) b (List.mem_cons_of_mem _ hb)

/-- Any two fields fired by the same evaluation of the same row belong to the
same tier of the `intervals` table: the windows are disjoint, so the row's
elapsed minutes select at most one tier. -/
theorem fired_same_tier (r : Row) (k1 k2 : String)
    (h1 : k1 ∈ firedKeys (check_and_notify r))
    (h2 : k2 ∈ firedKeys (check_and_notify r)) : keyTier k1 = keyTier k2 := by
  rw [show check_and_notify r = check_and_notifyD send_sms send_email r from rfl,
    mem_firedKeys] at h1 h2
  rcases h1 with ⟨⟨a1, a2, a3⟩, rfl⟩ | ⟨⟨a1, a2, a3⟩, rfl⟩ | ⟨⟨a1, a2, a3⟩, rfl⟩ |
    ⟨⟨a1, a2, a3⟩, rfl⟩ | ⟨⟨a1, a2, a3⟩, rfl⟩ | ⟨⟨a1, a2, a3⟩, rfl⟩ | ⟨⟨a1, a2, a3⟩, rfl⟩ |
    ⟨⟨a1, a2, a3⟩, rfl⟩ | ⟨⟨a1, a2, a3⟩, rfl⟩ | ⟨⟨a1, a2, a3, a4⟩, rfl⟩ |
    ⟨⟨a1, a2, a3, a4⟩, rfl⟩ | ⟨⟨a1, a2⟩, rfl⟩ | ⟨⟨a1, a2⟩, rfl⟩ <;>
    rcases h2 with ⟨⟨b1, b2, b3⟩, rfl⟩ | ⟨⟨b1, b2, b3⟩, rfl⟩ | ⟨⟨b1, b2, b3⟩, rfl⟩ |
      ⟨⟨b1, b2, b3⟩, rfl⟩ | ⟨⟨b1, b2, b3⟩, rfl⟩ | ⟨⟨b1, b2, b3⟩, rfl⟩ | ⟨⟨b1, b2, b3⟩, rfl⟩ |
      ⟨⟨b1, b2, b3⟩, rfl⟩ | ⟨⟨b1, b2, b3⟩, rfl⟩ | ⟨⟨b1, b2, b3, b4⟩, rfl⟩ |
      ⟨⟨b1, b2, b3, b4⟩, rfl⟩ | ⟨⟨b1, b2⟩, rfl⟩ | ⟨⟨b1, b2⟩, rfl⟩ <;>
    simp only [keyTier_30m_p, keyTier_1hr_p, keyTier_1hr_s, keyTier_3hr_p, keyTier_3hr_s,
      keyTier_6hr_p, keyTier_6hr_s, keyTier_12hr_p, keyTier_12hr_s, keyTier_daily_p,
      keyTier_daily_s, keyTier_weekly_p, keyTier_weekly_s] <;>
    omega

/-- In one sweep, the fired fields of one row span at most one tier. -/
theorem one_tier_per_sweep (r : Row) :
    ((firedKeys (check_and_notify r)).map keyTier).dedup.length ≤ 1 := by
  apply dedup_length_le_one
  intro a ha b hb
  simp only [List.mem_map] at ha hb
  obtain ⟨k1, hk1, rfl⟩ := ha
  obtain ⟨k2, hk2, rfl⟩ := hb
  exact fired_same_tier r k1 k2 hk1 hk2

/-- Counterexample for C6 (its negation): no record state and elapsed time
make a single `check_and_notify` evaluation fire fields of more than one tier
(two or more distinct tiers among the fired fields): the windows partition
`(30, ∞)` and a passed tier is never retroactively fired, so all fields fired
in one evaluation belong to one tier. -/
theorem C6_counterexample :
    ¬ ∃ r : Row, 2 ≤ ((firedKeys (check_and_notify r)).map keyTier).dedup.length := by
  rintro ⟨r, hr⟩
  have h1 := one_tier_per_sweep r
  omega

/-- C6 (amended): more than one FIELD can fire for one record in one sweep —
the primary and secondary field of the same tier (e.g. a fresh record at
elapsed 90 fires both 1-hour fields) — but fields of more than one TIER never
fire together, because the windows are disjoint and back tiers are never
retroactively fired. -/
theorem C6_multi_field_single_tier :
    (2 ≤ (firedKeys (check_and_notify (freshRowAt 90))).length ∧
      (check_and_notify (freshRowAt 90)).notifs =
        [⟨"notify_1hr_primary", 1⟩, ⟨"notify_1hr_secondary", 1⟩]) ∧
    ∀ r : Row, ((firedKeys (check_and_notify r)).map keyTier).dedup.length ≤ 1 :=
  ⟨by decide, one_tier_per_sweep⟩

@[simp] theorem tierFields_refreshRow (r : Row) (s : Source) (m : String) :
    tierFields (refreshRow r s m) = tierFields r := rfl

@[simp] theorem tierFields_freshRow (s : Source) (m : String) :
    tierFields (freshRow s m) = List.replicate 13 0 := rfl

theorem refreshedFrom_cons {store : List Row} {rest : List Source} {rr : Row}
    (s0 : Source) (h : RefreshedFrom store rest rr) :
    RefreshedFrom store (s0 :: rest) rr := by
  obtain ⟨r, hr, s, hs, hrest⟩ := h
  exact ⟨r, hr, s, List.mem_cons_of_mem _ hs, hrest⟩

theorem insertedFrom_cons {rest : List Source} {rr : Row} (s0 : Source)
    (h : InsertedFrom rest rr) : InsertedFrom (s0 :: rest) rr := by
  obtain ⟨s, hs, hrest⟩ := h
  exact ⟨s, List.mem_cons_of_mem _ hs, hrest⟩

/-- One `upsertRow` either leaves a row alone, refreshes a key-matching row, or
appends the fresh row. -/
theorem mem_upsert_cases (store : List Row) (s : Source) (m : String) (rr : Row)
    (h : rr ∈ upsertRow store s m) :
    rr ∈ store ∨
    (∃ r ∈ store, r.id_in_sources = s.id ∧ r.master_id = m ∧ rr = refreshRow r s m) ∨
    rr = freshRow s m := by
  unfold upsertRow at h
  split_ifs at h with hc
  · obtain ⟨r, hr, hfr⟩ := List.mem_map.1 h
    by_cases hk : r.id_in_sources = s.id ∧ r.master_id = m
    · rw [if_pos hk] at hfr
      exact Or.inr (Or.inl ⟨r, hr, hk.1, hk.2, hfr.symm⟩)
    · rw [if_neg hk] at hfr
      exact Or.inl (hfr ▸ hr)
  · rcases List.mem_append.1 h with h' | h'
    · exact Or.inl h'
    · exact Or.inr (Or.inr (List.mem_singleton.1 h'))

/-- Every row of the store after `add_offline_sensors_to_table` is an
untouched old row, a refresh of an old row by a qualifying registry row, or a
fresh insert for a qualifying registry row. -/
theorem add_mem_trichotomy (snap : List Source) (rr : Row) :
    ∀ store : List Row, rr ∈ add_offline_sensors_to_table store snap →
      rr ∈ store ∨ RefreshedFrom store snap rr ∨ InsertedFrom snap rr := by
  induction snap with
  | nil => exact fun _ h => Or.inl h
  | cons s0 rest ih =>
    intro store h
    have h' : rr ∈ add_offline_sensors_to_table
        (match s0.master_id with
         | none => store
         | some m =>
           if 30 < s0.minutes_since_last_heartbeat then upsertRow store s0 m else store)
        rest := h
    rcases hm : s0.master_id with _ | m0
    · simp only [hm] at h'
      rcases ih store h' with h1 | h2 | h3
      · exact Or.inl h1
      · exact Or.inr (Or.inl (refreshedFrom_cons s0 h2))
      · exact Or.inr (Or.inr (insertedFrom_cons s0 h3))
    · simp only [hm] at h'
      by_cases ht : 30 < s0.minutes_since_last_heartbeat
      · rw [if_pos ht] at h'
        rcases ih (upsertRow store s0 m0) h' with h1 | h2 | h3
        · rcases mem_upsert_cases store s0 m0 rr h1 with g1 | ⟨r0, hr0, hk1, hk2, rfl⟩ | rfl
          · exact Or.inl g1
          · exact Or.inr (Or.inl ⟨r0, hr0, s0, List.mem_cons_self _ _, hk1.symm,
              by rw [hm, hk2], ht, rfl, rfl, hk2.symm, rfl, rfl, rfl, rfl⟩)
          · exact Or.inr (Or.inr ⟨s0, List.mem_cons_self _ _, hm, ht, rfl, rfl, rfl,
              rfl, rfl, rfl⟩)
        · obtain ⟨r, hr, s, hs, c1, c2, c3, c4, c5, c6, c7, c8, c9, c10⟩ := h2
          rcases mem_upsert_cases store s0 m0 r hr with g1 | ⟨r0, hr0, hk1, hk2, rfl⟩ | rfl
          · exact Or.inr (Or.inl ⟨r, g1, s, List.mem_cons_of_mem _ hs, c1, c2, c3, c4,
              c5, c6, c7, c8, c9, c10⟩)
          · refine Or.inr (Or.inl ⟨r0, hr0, s, List.mem_cons_of_mem _ hs, c1, ?_, c3,
              c4, c5, ?_, c7, c8, c9, c10⟩)
            · rw [hk2]; exact c2
            · rw [hk2]; exact c6
          · refine Or.inr (Or.inr ⟨s, List.mem_cons_of_mem _ hs, ?_, c3, ?_, c7, c8,
              c9, c10, ?_⟩)
            · rw [c6]; exact c2
            · rw [c5]; exact c1.symm
            · exact c4
        · exact Or.inr (Or.inr (insertedFrom_cons s0 h3))
      · rw [if_neg ht] at h'
        rcases ih store h' with h1 | h2 | h3
        · exact Or.inl h1
        · exact Or.inr (Or.inl (refreshedFrom_cons s0 h2))
        · exact Or.inr (Or.inr (insertedFrom_cons s0 h3))

@[simp] theorem refreshRow_id (r : Row) (s : Source) (m : String) :
    (refreshRow r s m).id_in_sources = r.id_in_sources := rfl

@[simp] theorem refreshRow_master (r : Row) (s : Source) (m : String) :
    (refreshRow r s m).master_id = m := rfl

@[simp] theorem freshRow_id (s : Source) (m : String) :
    (freshRow s m).id_in_sources = s.id := rfl

@[simp] theorem freshRow_master (s : Source) (m : String) :
    (freshRow s m).master_id = m := rfl

/-- One `upsertRow` changes key membership exactly by the upserted key. -/
theorem KeyIn_upsert (store : List Row) (s : Source) (m : String) (i : Nat) (mm : String) :
    KeyIn (upsertRow store s m) i mm ↔ KeyIn store i mm ∨ (s.id = i ∧ m = mm) := by
  unfold upsertRow
  split_ifs with hc
  · constructor
    · rintro ⟨r', hr', hid, hmid⟩
      obtain ⟨r, hr, rfl⟩ := List.mem_map.1 hr'
      by_cases hk : r.id_in_sources = s.id ∧ r.master_id = m
      · rw [if_pos hk] at hid hmid
        exact Or.inl ⟨r, hr, hid, by rw [hk.2]; exact hmid⟩
      · rw [if_neg hk] at hid hmid
        exact Or.inl ⟨r, hr, hid, hmid⟩
    · rintro (⟨r, hr, hid, hmid⟩ | ⟨hi, hmm'⟩)
      · refine ⟨if r.id_in_sources = s.id ∧ r.master_id = m then refreshRow r s m else r,
          List.mem_map_of_mem _ hr, ?_, ?_⟩
        · split_ifs with hk
          · exact hid
          · exact hid
        · split_ifs with hk
          · rw [refreshRow_master, ← hk.2]
            exact hmid
          · exact hmid
      · rw [List.any_eq_true] at hc
        obtain ⟨r, hr, hk⟩ := hc
        rw [decide_eq_true_eq] at hk
        refine ⟨if r.id_in_sources = s.id ∧ r.master_id = m then refreshRow r s m else r,
          List.mem_map_of_mem _ hr, ?_, ?_⟩
        · rw [if_pos hk, refreshRow_id, hk.1]
          exact hi
        · rw [if_pos hk, refreshRow_master]
          exact hmm'
  · constructor
    · rintro ⟨r, hr, hid, hmid⟩
      rcases List.mem_append.1 hr with h' | h'
      · exact Or.inl ⟨r, h', hid, hmid⟩
      · have h'' := List.mem_singleton.1 h'
        subst h''
        exact Or.inr ⟨hid, hmid⟩
    · rintro (⟨r, hr, hid, hmid⟩ | ⟨hi, hmm'⟩)
      · exact ⟨r, List.mem_append_left _ hr, hid, hmid⟩
      · exact ⟨freshRow s m, List.mem_append_right _ (List.mem_singleton.2 rfl), hi, hmm'⟩

/-- Key membership after `add_offline_sensors_to_table`: the old keys plus one
key per registry row that qualifies (elapsed over 30, non-null master). -/
theorem KeyIn_add (snap : List Source) (i : Nat) (m : String) :
    ∀ store : List Row,
      KeyIn (add_offline_sensors_to_table store snap) i m ↔
        KeyIn store i m ∨ ∃ s ∈ snap, s.id = i ∧ s.master_id = some m ∧
          30 < s.minutes_since_last_heartbeat := by
  induction snap with
  | nil =>
    intro store
    simp [add_offline_sensors_to_table]
  | cons s0 rest ih =>
    intro store
    have hstep : add_offline_sensors_to_table store (s0 :: rest) =
        add_offline_sensors_to_table
          (match s0.master_id with
           | none => store
           | some m0 =>
             if 30 < s0.minutes_since_last_heartbeat then upsertRow store s0 m0 else store)
          rest := rfl
    rw [hstep, ih]
    rcases hm : s0.master_id with _ | m0
    · simp only [hm]
      constructor
      · rintro (h | ⟨s, hs, hrest⟩)
        · exact Or.inl h
        · exact Or.inr ⟨s, List.mem_cons_of_mem _ hs, hrest⟩
      · rintro (h | ⟨s, hs, h1, h2, h3⟩)
        · exact Or.inl h
        · rcases List.mem_cons.1 hs with rfl | hs'
          · rw [hm] at h2
            exact Option.noConfusion h2
          · exact Or.inr ⟨s, hs', h1, h2, h3⟩
    · simp only [hm]
      by_cases ht : 30 < s0.minutes_since_last_heartbeat
      · rw [if_pos ht, KeyIn_upsert]
        constructor
        · rintro ((h | ⟨h1, h2⟩) | ⟨s, hs, hrest⟩)
          · exact Or.inl h
          · exact Or.inr ⟨s0, List.mem_cons_self _ _, h1, by rw [hm, h2], ht⟩
          · exact Or.inr ⟨s, List.mem_cons_of_mem _ hs, hrest⟩
        · rintro (h | ⟨s, hs, h1, h2, h3⟩)
          · exact Or.inl (Or.inl h)
          · rcases List.mem_cons.1 hs with rfl | hs'
            · rw [hm] at h2
              exact Or.inl (Or.inr ⟨h1, Option.some.inj h2⟩)
            · exact Or.inr ⟨s, hs', h1, h2, h3⟩
      · rw [if_neg ht]
        constructor
        · rintro (h | ⟨s, hs, hrest⟩)
          · exact Or.inl h
          · exact Or.inr ⟨s, List.mem_cons_of_mem _ hs, hrest⟩
        · rintro (h | ⟨s, hs, h1, h2, h3⟩)
          · exact Or.inl h
          · rcases List.mem_cons.1 hs with rfl | hs'
            · rw [hm] at h2
              have h4 := Option.some.inj h2
              subst h4
              exact absurd h3 ht
            · exact Or.inr ⟨s, hs', h1, h2, h3⟩

/-- Membership after `del_offline_sensors`: the row survives iff no registry
row matches its key with elapsed under 30. -/
theorem mem_del_iff (store : List Row) (snap : List Source) (r : Row) :
    r ∈ del_offline_sensors store snap ↔
      r ∈ store ∧ ∀ s ∈ snap, ¬(s.id = r.id_in_sources ∧ s.master_id = some r.master_id ∧
        s.minutes_since_last_heartbeat < 30) := by
  simp [del_offline_sensors, List.mem_filter]

/-- Key membership after `del_offline_sensors`. -/
theorem KeyIn_del (store : List Row) (snap : List Source) (i : Nat) (m : String) :
    KeyIn (del_offline_sensors store snap) i m ↔
      KeyIn store i m ∧ ∀ s ∈ snap, ¬(s.id = i ∧ s.master_id = some m ∧
        s.minutes_since_last_heartbeat < 30) := by
  constructor
  · rintro ⟨r, hr, hid, hmid⟩
    rw [mem_del_iff] at hr
    refine ⟨⟨r, hr.1, hid, hmid⟩, fun s hs => ?_⟩
    have h' := hr.2 s hs
    rw [hid, hmid] at h'
    exact h'
  · rintro ⟨⟨r, hr, hid, hmid⟩, hno⟩
    refine ⟨r, (mem_del_iff _ _ _).2 ⟨hr, fun s hs => ?_⟩, hid, hmid⟩
    rw [hid, hmid]
    exact hno s hs

/-- Filtering commutes with a map that does not change the filter verdict. -/
theorem filter_map_congr {α : Type} (f : α → α) (p : α → Bool)
    (h : ∀ x, p (f x) = p x) :
    ∀ l : List α, ((l.map f).filter p).length = (l.filter p).length := by
  intro l
  induction l with
  | nil => rfl
  | cons a as ih =>
    simp only [List.map_cons, List.filter_cons, h a]
    split_ifs <;> simp [ih]

/-- Refreshing rows in place does not change how many rows hold any key. -/
theorem countKeyRows_map_refresh (store : List Row) (s : Source) (m : String) (i : Nat)
    (mm : String) :
    countKeyRows (store.map (fun r =>
        if r.id_in_sources = s.id ∧ r.master_id = m then refreshRow r s m else r)) i mm =
      countKeyRows store i mm := by
  unfold countKeyRows
  refine filter_map_congr _ _ (fun r => ?_) store
  by_cases hk : r.id_in_sources = s.id ∧ r.master_id = m
  · rw [if_pos hk, decide_eq_decide]
    simp [refreshRow, hk.2]
  · rw [if_neg hk]

/-- `upsertRow` leaves at most one row per key if the store had at most one. -/
theorem countKeyRows_upsert_le (store : List Row) (s : Source) (m : String) (i : Nat)
    (mm : String) :
    countKeyRows (upsertRow store s m) i mm ≤ max 1 (countKeyRows store i mm) := by
  unfold upsertRow
  split_ifs with hc
  · rw [countKeyRows_map_refresh]
    exact le_max_right _ _
  · have happ : countKeyRows (store ++ [freshRow s m]) i mm =
        countKeyRows store i mm + countKeyRows [freshRow s m] i mm := by
      simp [countKeyRows, List.filter_append]
    rw [happ]
    by_cases hk : s.id = i ∧ m = mm
    · have h0 : countKeyRows store i mm = 0 := by
        rw [countKeyRows, List.length_eq_zero, List.filter_eq_nil]
        intro r hr
        simp only [decide_eq_true_eq, not_and]
        intro hid hmid
        exact absurd (List.any_eq_true.2 ⟨r, hr,
          decide_eq_true ⟨hid.trans hk.1.symm, hmid.trans hk.2.symm⟩⟩) hc
      have h1 : countKeyRows [freshRow s m] i mm ≤ 1 := List.length_filter_le _ _
      omega
    · have h1 : countKeyRows [freshRow s m] i mm = 0 := by
        simp [countKeyRows, List.filter, hk]
      have h2 := le_max_right 1 (countKeyRows store i mm)
      omega

/-- `add_offline_sensors_to_table` leaves at most one row per key if the store
had at most one. -/
theorem countKeyRows_add_le (snap : List Source) (i : Nat) (m : String) :
    ∀ store : List Row,
      countKeyRows (add_offline_sensors_to_table store snap) i m ≤
        max 1 (countKeyRows store i m) := by
  induction snap with
  | nil => exact fun store => le_max_right _ _
  | cons s0 rest ih =>
    intro store
    have h1 : countKeyRows (add_offline_sensors_to_table store (s0 :: rest)) i m =
        countKeyRows (add_offline_sensors_to_table
          (match s0.master_id with
           | none => store
           | some m0 =>
             if 30 < s0.minutes_since_last_heartbeat then upsertRow store s0 m0 else store)
          rest) i m := rfl
    rw [h1]
    rcases hm : s0.master_id with _ | m0
    · simp only [hm]
      exact ih store
    · simp only [hm]
      by_cases ht : 30 < s0.minutes_since_last_heartbeat
      · rw [if_pos ht]
        have h2 := ih (upsertRow store s0 m0)
        have h3 := countKeyRows_upsert_le store s0 m0 i m
        omega
      · rw [if_neg ht]
        exact ih store

/-- Deletion cannot increase the number of rows holding a key. -/
theorem countKeyRows_del_le (store : List Row) (snap : List Source) (i : Nat)
    (m : String) :
    countKeyRows (del_offline_sensors store snap) i m ≤ countKeyRows store i m := by
  unfold countKeyRows del_offline_sensors
  exact List.Sublist.length_le (List.Sublist.filter _ (List.filter_sublist _))

/-- C8: upsert frame condition: every row produced by
`add_offline_sensors_to_table` is an untouched old row; or the refresh of an
old row by a registry row of the same composite key, where only `service`,
`master_id` (the key, hence equal), `master_name`, `last_heartbeat`, and
`minutes_since_last_heartbeat` are refreshed and the thirteen `notify_*`
fields are left unchanged; or a fresh insert whose thirteen `notify_*` fields
start at zero. -/
theorem C8_upsert_frame :
    ∀ (store : List Row) (snap : List Source) (rr : Row),
      rr ∈ add_offline_sensors_to_table store snap →
        rr ∈ store ∨ RefreshedFrom store snap rr ∨ InsertedFrom snap rr :=
  fun store snap rr h => add_mem_trichotomy snap rr store h

/-- Witness for C8: refreshing a tracked row (with escalation history
`notify_30m_primary = 4`) by a newer registry row. -/
theorem C8_upsert_frame_witness :
    refreshRow { freshRowAt 999 with notify_30m_primary := 4 }
        ⟨1, "svc2", some "m", "mn2", 200, 45⟩ "m" ∈
      [{ freshRowAt 999 with notify_30m_primary := 4 }] ∨
    RefreshedFrom [{ freshRowAt 999 with notify_30m_primary := 4 }]
      [⟨1, "svc2", some "m", "mn2", 200, 45⟩]
      (refreshRow { freshRowAt 999 with notify_30m_primary := 4 }
        ⟨1, "svc2", some "m", "mn2", 200, 45⟩ "m") ∨
    InsertedFrom [⟨1, "svc2", some "m", "mn2", 200, 45⟩]
      (refreshRow { freshRowAt 999 with notify_30m_primary := 4 }
        ⟨1, "svc2", some "m", "mn2", 200, 45⟩ "m") :=
  C8_upsert_frame _ _ _ (by decide)

/-- Counterexample for C4: membership is not equivalent to "elapsed > 30" —
the boundary value 30 breaks it.  With a record already in the store whose
registry row sits at elapsed exactly 30, reconciliation neither re-inserts
(insertion requires elapsed > 30) nor deletes (deletion requires
elapsed < 30), so the record survives although its elapsed is not > 30. -/
theorem C4_counterexample :
    reconcile [freshRow ⟨1, "svc", some "m", "mn", 100, 30⟩ "m"]
        [⟨1, "svc", some "m", "mn", 100, 30⟩] =
      [freshRow ⟨1, "svc", some "m", "mn", 100, 30⟩ "m"] ∧
    ¬ 30 < (⟨1, "svc", some "m", "mn", 100, 30⟩ : Source).minutes_since_last_heartbeat := by
  decide

/-- C4 (amended): after a reconciliation step (`add_offline_sensors_to_table`
then `del_offline_sensors`) over a registry snapshot, for a registry row `s`
with master id `m` that is the only snapshot row of its composite key: the
store holds a record of key `(s.id, m)` iff elapsed > 30, or elapsed is
exactly 30 and the key was already present (the boundary is neither inserted
nor deleted).  A store with at most one record per composite key keeps at most
one, and every surviving record traces back to an old record of the same key
or to a registry row with matching non-null `master_id` — so a registry row
with null `master_id` is never inserted. -/
theorem C4_reconcile_invariants :
    (∀ (store : List Row) (snap : List Source) (s : Source) (m : String),
      s ∈ snap → s.master_id = some m →
      (∀ s' ∈ snap, s'.id = s.id → s'.master_id = some m → s' = s) →
      (KeyIn (reconcile store snap) s.id m ↔
        (30 < s.minutes_since_last_heartbeat ∨
         (s.minutes_since_last_heartbeat = 30 ∧ KeyIn store s.id m)))) ∧
    (∀ (store : List Row) (snap : List Source) (i : Nat) (m : String),
      countKeyRows store i m ≤ 1 → countKeyRows (reconcile store snap) i m ≤ 1) ∧
    (∀ (store : List Row) (snap : List Source) (rr : Row),
      rr ∈ reconcile store snap →
        (∃ r0 ∈ store, r0.id_in_sources = rr.id_in_sources ∧
          r0.master_id = rr.master_id) ∨
        (∃ s ∈ snap, s.id = rr.id_in_sources ∧ s.master_id = some rr.master_id)) := by
  refine ⟨?_, ?_, ?_⟩
  · intro store snap s m hs hsm huniq
    rw [show reconcile store snap
        = del_offline_sensors (add_offline_sensors_to_table store snap) snap from rfl,
      KeyIn_del, KeyIn_add]
    constructor
    · rintro ⟨hin, hnot⟩
      rcases hin with hstore | ⟨s', hs', hid', hmid', ht'⟩
      · have hge : ¬ s.minutes_since_last_heartbeat < 30 := fun hlt =>
          hnot s hs ⟨rfl, hsm, hlt⟩
        rcases Nat.lt_or_ge 30 s.minutes_since_last_heartbeat with h | h
        · exact Or.inl h
        · exact Or.inr ⟨by omega, hstore⟩
      · have h4 := huniq s' hs' hid' hmid'
        subst h4
        exact Or.inl ht'
    · rintro (ht | ⟨he, hkey⟩)
      · refine ⟨Or.inr ⟨s, hs, rfl, hsm, ht⟩, ?_⟩
        intro s' hs' hcon
        obtain ⟨hid', hmid', hlt'⟩ := hcon
        have h4 := huniq s' hs' hid' hmid'
        subst h4
        omega
      · refine ⟨Or.inl hkey, ?_⟩
        intro s' hs' hcon
        obtain ⟨hid', hmid', hlt'⟩ := hcon
        have h4 := huniq s' hs' hid' hmid'
        subst h4
        omega
  · intro store snap i m h1
    have h2 := countKeyRows_add_le snap i m store
    have h3 := countKeyRows_del_le (add_offline_sensors_to_table store snap) snap i m
    have h4 : countKeyRows (reconcile store snap) i m =
        countKeyRows (del_offline_sensors (add_offline_sensors_to_table store snap) snap)
          i m := rfl
    omega
  · intro store snap rr hrr
    have hmem : rr ∈ add_offline_sensors_to_table store snap :=
      ((mem_del_iff _ _ _).1 hrr).1
    rcases add_mem_trichotomy snap rr store hmem with h | h | h
    · exact Or.inl ⟨rr, h, rfl, rfl⟩
    · obtain ⟨r, hr, s, hs, c1, c2, c3, c4, c5, c6, c7, c8, c9, c10⟩ := h
      exact Or.inl ⟨r, hr, c5.symm, c6.symm⟩
    · obtain ⟨s, hs, d1, d2, d3, d4, d5, d6, d7, d8⟩ := h
      exact Or.inr ⟨s, hs, d3.symm, d1⟩

/-- Witness for C4 (amended): an empty store and a one-row snapshot at elapsed
45: the key is tracked afterwards, uniqueness holds, and the surviving record
traces to the registry row. -/
theorem C4_reconcile_invariants_witness :
    (KeyIn (reconcile [] [⟨1, "svc", some "m", "mn", 100, 45⟩]) 1 "m" ↔
      (30 < (⟨1, "svc", some "m", "mn", 100, 45⟩ : Source).minutes_since_last_heartbeat ∨
       ((⟨1, "svc", some "m", "mn", 100, 45⟩ : Source).minutes_since_last_heartbeat = 30 ∧
        KeyIn [] 1 "m"))) ∧
    countKeyRows (reconcile [] [⟨1, "svc", some "m", "mn", 100, 45⟩]) 1 "m" ≤ 1 ∧
    ((∃ r0 ∈ ([] : List Row),
        r0.id_in_sources =
          (freshRow ⟨1, "svc", some "m", "mn", 100, 45⟩ "m").id_in_sources ∧
        r0.master_id = (freshRow ⟨1, "svc", some "m", "mn", 100, 45⟩ "m").master_id) ∨
     (∃ s ∈ [(⟨1, "svc", some "m", "mn", 100, 45⟩ : Source)],
        s.id = (freshRow ⟨1, "svc", some "m", "mn", 100, 45⟩ "m").id_in_sources ∧
        s.master_id =
          some (freshRow ⟨1, "svc", some "m", "mn", 100, 45⟩ "m").master_id)) :=
  ⟨C4_reconcile_invariants.1 [] [⟨1, "svc", some "m", "mn", 100, 45⟩]
      ⟨1, "svc", some "m", "mn", 100, 45⟩ "m" (by decide) (by decide) (by decide),
   C4_reconcile_invariants.2.1 [] [⟨1, "svc", some "m", "mn", 100, 45⟩] 1 "m" (by decide),
   C4_reconcile_invariants.2.2 [] [⟨1, "svc", some "m", "mn", 100, 45⟩]
      (freshRow ⟨1, "svc", some "m", "mn", 100, 45⟩ "m") (by decide)⟩
